import Mathlib

/-
Shallow embedding of the proctorwis-connect-lambda-package data-access layer
(src/db_utils.py and src/ssm_utils.py) and proofs about its get-or-create
resolution protocol, identifier allocation, audit-log append, parameter
retrieval and organization-application lookup.

Modelling conventions:
- A MySQL table is a list of records plus an auto-increment counter
  (the next value of cursor.lastrowid); SELECT ... fetchone is List.find?
  (first matching row), INSERT appends a row carrying the next id.
- uuid.uuid4().hex is modelled by an external random stream
  rng : Nat -> Nat; the value drawn at loop iteration k is rng k,
  reduced mod 2^128 and rendered as 32 lowercase hex digits.
- datetime.datetime.now() is modelled by a parameter now : Nat counting
  microseconds since 1970-01-01 00:00:00 (naive local time);
  datetime.timedelta(days = D) adds D * 86400000000 microseconds.
- The unbounded while-loop of get_or_create_participant is given a fuel
  parameter; a result of none for the whole call means the loop did not
  terminate within the supplied fuel (the Python code would still be
  looping). This is the only possible source of none at the outer layer.
- json.dumps is modelled on an inductive type of Python values; values
  that the real json.dumps rejects (arbitrary objects) are the
  PyVal.object constructor, on which the model raises a TypeError, as
  CPython does, before the INSERT statement runs.
-/

/-- One lowercase hexadecimal digit, as produced by pythons hex formatting:
0-9 then a-f. -/
def hexDigit (n : Nat) : Char :=
  if n < 10 then Char.ofNat (48 + n) else Char.ofNat (87 + n)

/-- Big-endian fixed-width hexadecimal rendering: w digits of n. -/
def hexChars : Nat → Nat → List Char
  | 0, _ => []
  | w + 1, n => hexChars w (n / 16) ++ [hexDigit (n % 16)]

/-- Model of uuid.uuid4().hex applied to one draw n of the random stream:
the 128-bit value is rendered as exactly 32 lowercase hex digits with no
separators. -/
def uuidHex (n : Nat) : String :=
  String.mk (hexChars 32 (n % 2 ^ 128))

/-- Zero-pad the decimal rendering of n on the left to width w, as the
fixed-width fields of strftime do. -/
def padZeros (w : Nat) (n : Nat) : String :=
  String.mk (List.replicate (w - (toString n).length) '0') ++ toString n

/-- Microseconds per day: the effect of datetime.timedelta(days = 1). -/
def USEC_PER_DAY : Nat := 86400000000

/-- Convert a count of days since 1970-01-01 to (year, month, day) of the
proleptic Gregorian calendar, the arithmetic the datetime module performs
when rendering a date. -/
def civilFromDays (z0 : Nat) : Nat × Nat × Nat :=
  let z := z0 + 719468
  let era := z / 146097
  let doe := z % 146097
  let yoe := (doe - doe / 1460 + doe / 36524 - doe / 146096) / 365
  let y := yoe + era * 400
  let doy := doe - (365 * yoe + yoe / 4 - yoe / 100)
  let mp := (5 * doy + 2) / 153
  let d := doy - (153 * mp + 2) / 5 + 1
  let m := if mp < 10 then mp + 3 else mp - 9
  (if m ≤ 2 then y + 1 else y, m, d)

/-- Model of strftime with format %Y-%m-%d %H:%M:%S.%f on a naive datetime
t microseconds after 1970-01-01 00:00:00. -/
def strftimeMicro (t : Nat) : String :=
  let usec := t % 1000000
  let totalSec := t / 1000000
  let s := totalSec % 60
  let mi := totalSec / 60 % 60
  let h := totalSec / 3600 % 24
  let ymd := civilFromDays (totalSec / 86400)
  padZeros 4 ymd.1 ++ "-" ++ padZeros 2 ymd.2.1 ++ "-" ++ padZeros 2 ymd.2.2 ++
    " " ++ padZeros 2 h ++ ":" ++ padZeros 2 mi ++ ":" ++ padZeros 2 s ++
    "." ++ padZeros 6 usec

/-- Model of the Python expression str(u).replace(Chr 45, empty): every
hyphen is removed, all other characters kept in order
(src/db_utils.py line 28). -/
def stripHyphens (s : String) : String :=
  String.mk (s.data.filter (fun c => c ≠ '-'))

/-- A row of the organization_apps table; SELECT * returns the whole row.
Only the columns this layer touches are modelled. -/
structure OrgAppRec where
  id : Nat
  uuid : String
  organization_id : Nat
deriving DecidableEq, Repr

/-- The SELECT * FROM organization_apps WHERE uuid = %s point lookup with
fetchone: the first row whose uuid column equals the key. -/
def lookupOrgAppByUuid (rows : List OrgAppRec) (u : String) : Option OrgAppRec :=
  rows.find? (fun r => r.uuid == u)

/-- Embedding of get_organization_app (src/db_utils.py lines 9-38): strips
hyphens from the supplied identifier, then performs the keyed lookup;
a miss is returned as none, not raised. -/
def get_organization_app (rows : List OrgAppRec) (u : String) : Option OrgAppRec :=
  lookupOrgAppByUuid rows (stripHyphens u)

/-- A row of the spaces table. -/
structure SpaceRec where
  id : Nat
  organization_id : Nat
  space_code : String
  space_name : String
  open_result_days : Nat
deriving DecidableEq, Repr

/-- The spaces table: its rows, the next auto-increment id, and the schema
default that the store itself assigns to open_result_days on an INSERT
that does not mention that column (the INSERT in get_or_create_space
supplies only organization_id, space_code and space_name). -/
structure SpacesTable where
  rows : List SpaceRec
  nextId : Nat
  defaultOpenResultDays : Nat
deriving DecidableEq, Repr

/-- Store well-formedness: every existing row id is below the
auto-increment counter, as MySQL auto-increment guarantees. -/
def SpacesTable.wf (st : SpacesTable) : Prop :=
  ∀ r ∈ st.rows, r.id < st.nextId

/-- SELECT * FROM spaces WHERE organization_id = %s AND space_code = %s
with fetchone. -/
def lookupSpaceByKey (st : SpacesTable) (org : Nat) (code : String) : Option SpaceRec :=
  st.rows.find? (fun r => r.organization_id == org && r.space_code == code)

/-- SELECT * FROM spaces WHERE id = %s with fetchone. -/
def lookupSpaceById (st : SpacesTable) (i : Nat) : Option SpaceRec :=
  st.rows.find? (fun r => r.id == i)

/-- The row that INSERT INTO spaces (organization_id, space_code,
space_name) creates: the store assigns the surrogate id and fills
open_result_days from the schema default. -/
def newSpaceRec (st : SpacesTable) (org : Nat) (code name : String) : SpaceRec :=
  { id := st.nextId, organization_id := org, space_code := code,
    space_name := name, open_result_days := st.defaultOpenResultDays }

/-- INSERT INTO spaces ... followed by reading cursor.lastrowid: returns
the updated table and the assigned surrogate key. -/
def insertSpace (st : SpacesTable) (org : Nat) (code name : String) :
    SpacesTable × Nat :=
  ({ st with rows := st.rows ++ [newSpaceRec st org code name],
             nextId := st.nextId + 1 }, st.nextId)

/-- Embedding of get_or_create_space (src/db_utils.py lines 40-82): look
up by (organization_id, space_code); on a hit return the row unchanged;
on a miss insert, take lastrowid, re-read by id and return the freshly
read row. Returns the table after the call and the fetched row. -/
def get_or_create_space (st : SpacesTable) (organization_id : Nat)
    (space_code space_name : String) : SpacesTable × Option SpaceRec :=
  match lookupSpaceByKey st organization_id space_code with
  | some space => (st, some space)
  | none =>
      let ins := insertSpace st organization_id space_code space_name
      (ins.1, lookupSpaceById ins.1 ins.2)

/-- A row of the participants table. -/
structure ParticipantRec where
  id : Nat
  uuid : String
  organization_id : Nat
  space_id : Nat
  participant_code : String
  participant_user_code : String
  participant_name : String
  result_closed_at : String
deriving DecidableEq, Repr

/-- The participants table: rows plus the next auto-increment id. -/
structure ParticipantsTable where
  rows : List ParticipantRec
  nextId : Nat
deriving DecidableEq, Repr

/-- Store well-formedness: every existing row id is below the
auto-increment counter. -/
def ParticipantsTable.wf (st : ParticipantsTable) : Prop :=
  ∀ r ∈ st.rows, r.id < st.nextId

/-- SELECT * FROM participants WHERE organization_id = %s AND
space_id = %s AND participant_code = %s with fetchone. -/
def lookupParticipantByKey (st : ParticipantsTable) (org spaceId : Nat)
    (code : String) : Option ParticipantRec :=
  st.rows.find? (fun r =>
    r.organization_id == org && r.space_id == spaceId && r.participant_code == code)

/-- SELECT * FROM participants WHERE uuid = %s with fetchone: the point
lookup on the uuid column used as the existence check of the allocation
loop. -/
def lookupParticipantByUuid (st : ParticipantsTable) (u : String) :
    Option ParticipantRec :=
  st.rows.find? (fun r => r.uuid == u)

/-- SELECT * FROM participants WHERE id = %s with fetchone. -/
def lookupParticipantById (st : ParticipantsTable) (i : Nat) :
    Option ParticipantRec :=
  st.rows.find? (fun r => r.id == i)

/-- The row that INSERT INTO participants creates on the miss path, given
the fresh uuid and the serialized result_closed_at. -/
def newParticipantRec (st : ParticipantsTable) (u : String) (org spaceId : Nat)
    (code ucode name rca : String) : ParticipantRec :=
  { id := st.nextId, uuid := u, organization_id := org, space_id := spaceId,
    participant_code := code, participant_user_code := ucode,
    participant_name := name, result_closed_at := rca }

/-- INSERT INTO participants ... followed by reading cursor.lastrowid. -/
def insertParticipant (st : ParticipantsTable) (u : String) (org spaceId : Nat)
    (code ucode name rca : String) : ParticipantsTable × Nat :=
  ({ rows := st.rows ++ [newParticipantRec st u org spaceId code ucode name rca],
     nextId := st.nextId + 1 }, st.nextId)

/-- Embedding of the while exist loop of get_or_create_participant
(src/db_utils.py lines 116-137). k is the index into the random stream
(how many draws happened so far); fuel bounds how many more iterations we
unfold, with none meaning the loop is still running after that many
iterations. On the first draw whose existence check comes back empty, the
current timestamp plus open_result_days days is serialized with
microsecond precision, the row is inserted, and the row re-read by
lastrowid is returned together with the updated table. -/
def participantCreateLoop (rng : Nat → Nat) (now : Nat) (organization_id : Nat)
    (space : SpaceRec) (participant_code participant_user_code participant_name : String)
    (st : ParticipantsTable) : Nat → Nat → Option (ParticipantsTable × Option ParticipantRec)
  | 0, _ => none
  | fuel + 1, k =>
      let participant_uuid := uuidHex (rng k)
      match lookupParticipantByUuid st participant_uuid with
      | some _ =>
          participantCreateLoop rng now organization_id space participant_code
            participant_user_code participant_name st fuel (k + 1)
      | none =>
          let result_closed_at :=
            strftimeMicro (now + space.open_result_days * USEC_PER_DAY)
          let ins := insertParticipant st participant_uuid organization_id space.id
            participant_code participant_user_code participant_name result_closed_at
          some (ins.1, lookupParticipantById ins.1 ins.2)

/-- Embedding of get_or_create_participant (src/db_utils.py lines 84-142):
look up by (organization_id, space id, participant_code); on a hit return
the row unchanged; on a miss run the uuid allocation loop, insert and
re-read. The outer Option is the fuel bound of the loop: none never
occurs on the hit path. -/
def get_or_create_participant (st : ParticipantsTable) (rng : Nat → Nat)
    (now : Nat) (fuel : Nat) (organization_id : Nat) (space : SpaceRec)
    (participant_code participant_user_code participant_name : String) :
    Option (ParticipantsTable × Option ParticipantRec) :=
  match lookupParticipantByKey st organization_id space.id participant_code with
  | some participant => some (st, some participant)
  | none =>
      participantCreateLoop rng now organization_id space participant_code
        participant_user_code participant_name st fuel 0

/-- A Python value as passed in the reason and logs arguments: the JSON
fragment plus arbitrary objects (PyVal.object), which json.dumps rejects. -/
inductive PyVal where
  | null
  | boolean (b : Bool)
  | int (n : Int)
  | str (s : String)
  | arr (elems : List PyVal)
  | dict (entries : List (String × PyVal))
  | object (typeName : String)

/-- The Python exceptions this layer can raise apart from store failures. -/
inductive PyErr where
  | typeError (msg : String)
deriving DecidableEq, Repr

/-- Escape one character inside a JSON string literal the way json.dumps
does for the ASCII range (escaping of characters above 126 under
ensure_ascii is not needed by any claim and is left verbatim). -/
def jsonEscapeChar (c : Char) : String :=
  if c = '"' then "\\\""
  else if c = '\\' then "\\\\"
  else if c = '\n' then "\\n"
  else if c = '\t' then "\\t"
  else if c = '\r' then "\\r"
  else if c.toNat < 32 then "\\u" ++ String.mk (hexChars 4 c.toNat)
  else String.singleton c

/-- A JSON string literal: quoted and escaped. -/
def jsonQuote (s : String) : String :=
  "\"" ++ String.join (s.data.map jsonEscapeChar) ++ "\""

mutual
/-- Model of json.dumps with default settings: separators comma-space and
colon-space, literals null, true and false; a non-serializable object
raises TypeError, as CPython does. -/
def jsonDumpsVal : PyVal → Except PyErr String
  | .null => .ok "null"
  | .boolean true => .ok "true"
  | .boolean false => .ok "false"
  | .int n => .ok (toString n)
  | .str s => .ok (jsonQuote s)
  | .arr xs =>
      match jsonDumpsArr xs with
      | .error e => .error e
      | .ok parts => .ok ("[" ++ String.intercalate ", " parts ++ "]")
  | .dict kvs =>
      match jsonDumpsDict kvs with
      | .error e => .error e
      | .ok parts => .ok ("\x7b" ++ String.intercalate ", " parts ++ "\x7d")
  | .object t => .error (.typeError ("Object of type " ++ t ++ " is not JSON serializable"))

/-- Serialize the elements of a JSON array, failing on the first
non-serializable element. -/
def jsonDumpsArr : List PyVal → Except PyErr (List String)
  | [] => .ok []
  | v :: vs =>
      match jsonDumpsVal v with
      | .error e => .error e
      | .ok s =>
          match jsonDumpsArr vs with
          | .error e => .error e
          | .ok rest => .ok (s :: rest)

/-- Serialize the entries of a JSON object, failing on the first
non-serializable value. -/
def jsonDumpsDict : List (String × PyVal) → Except PyErr (List String)
  | [] => .ok []
  | (k, v) :: kvs =>
      match jsonDumpsVal v with
      | .error e => .error e
      | .ok s =>
          match jsonDumpsDict kvs with
          | .error e => .error e
          | .ok rest => .ok ((jsonQuote k ++ ": " ++ s) :: rest)
end

/-- A row of the face_auth_logs table; reason and logs hold the serialized
JSON text, created_at (store-assigned) is not read by this layer and is
not modelled. -/
structure FaceAuthRec where
  id : Nat
  authentication_code : String
  organization_id : Nat
  space_id : Nat
  participant_id : Nat
  is_authenticated : Bool
  reason : String
  logs : String
  threshold : Rat
deriving DecidableEq, Repr

/-- The face_auth_logs table: rows plus the next auto-increment id. -/
structure FaceAuthTable where
  rows : List FaceAuthRec
  nextId : Nat
deriving DecidableEq, Repr

/-- The row that the INSERT INTO face_auth_logs statement creates, given
the two already-serialized documents. -/
def newFaceAuthRec (st : FaceAuthTable) (org spaceId participantId : Nat)
    (authCode : String) (isAuth : Bool) (rs ls : String) (threshold : Rat) :
    FaceAuthRec :=
  { id := st.nextId, authentication_code := authCode, organization_id := org,
    space_id := spaceId, participant_id := participantId,
    is_authenticated := isAuth, reason := rs, logs := ls, threshold := threshold }

/-- Embedding of create_face_auth_log (src/db_utils.py lines 144-178):
json.dumps runs on reason and then on logs while the parameter tuple of
cursor.execute is being built, so a serialization failure raises before
the INSERT executes and leaves the table unchanged; otherwise exactly one
row is appended and True is returned. -/
def create_face_auth_log (st : FaceAuthTable) (organization_id space_id participant_id : Nat)
    (authentication_code : String) (is_authenticated : Bool) (reason logs : PyVal)
    (threshold : Rat) : FaceAuthTable × Except PyErr Bool :=
  match jsonDumpsVal reason with
  | .error e => (st, .error e)
  | .ok rs =>
      match jsonDumpsVal logs with
      | .error e => (st, .error e)
      | .ok ls =>
          ({ rows := st.rows ++ [newFaceAuthRec st organization_id space_id
               participant_id authentication_code is_authenticated rs ls threshold],
             nextId := st.nextId + 1 }, .ok true)

/-- The three observable outcomes of the boto3 SSM get_parameter call:
a value, the ParameterNotFound exception, or any other exception. -/
inductive SsmResponse where
  | found (value : String)
  | parameterNotFound
  | otherFailure (e : String)
deriving DecidableEq, Repr

/-- Embedding of get_parameter (src/ssm_utils.py lines 8-37): on
ParameterNotFound a warning is logged and the default returned; any other
failure is re-raised unchanged; on success the stored value is returned.
The second component is the list of log messages emitted. -/
def get_parameter (ssm : String → SsmResponse) (param_key : String)
    (default_value : Option String) : Except String (Option String) × List String :=
  match ssm param_key with
  | .found v => (.ok (some v), [])
  | .parameterNotFound =>
      (.ok default_value,
       ["Parameter \x7b" ++ param_key ++ "\x7d not found. Returning default value."])
  | .otherFailure e => (.error e, [])

/-- Concrete space row used by the hit-path witnesses, matching the
scenario of the spec: organization 42, code S1, name Space One,
open_result_days 7. -/
def spaceHitW : SpaceRec :=
  { id := 1, organization_id := 42, space_code := "S1",
    space_name := "Space One", open_result_days := 7 }

/-- Concrete spaces table holding exactly spaceHitW. -/
def spacesHitW : SpacesTable :=
  { rows := [spaceHitW], nextId := 2, defaultOpenResultDays := 7 }

/-- Concrete participant row used by the hit-path witnesses. -/
def partHitW : ParticipantRec :=
  { id := 1, uuid := uuidHex 5, organization_id := 42, space_id := 1,
    participant_code := "P1", participant_user_code := "U1",
    participant_name := "N1", result_closed_at := "2024-01-04 00:00:00.000000" }

/-- Concrete participants table holding exactly partHitW. -/
def partsHitW : ParticipantsTable := { rows := [partHitW], nextId := 2 }

/-- Concrete space with open_result_days = 3 for the retention witness. -/
def spaceW4 : SpaceRec :=
  { id := 7, organization_id := 42, space_code := "S1",
    space_name := "Space One", open_result_days := 3 }

/-- The participant row created by the retention witness run: creation
instant 2024-01-01 00:00:00 plus 3 days gives the serialized
result_closed_at below. -/
def pW4 : ParticipantRec :=
  { id := 1, uuid := uuidHex 0, organization_id := 42, space_id := 7,
    participant_code := "P1", participant_user_code := "U1",
    participant_name := "N1", result_closed_at := "2024-01-04 00:00:00.000000" }

/-- The participants table after the retention witness run. -/
def stW4 : ParticipantsTable := { rows := [pW4], nextId := 2 }

/-- Concrete space for the allocation-budget counterexample. -/
def spaceC2 : SpaceRec :=
  { id := 3, organization_id := 1, space_code := "S", space_name := "S",
    open_result_days := 1 }

/-- One pre-existing participant row whose uuid collides with the i-th
draw of the identity random stream. -/
def collidingRow (i : Nat) : ParticipantRec :=
  { id := i + 1, uuid := uuidHex i, organization_id := 1, space_id := 3,
    participant_code := "p" ++ toString i, participant_user_code := "u",
    participant_name := "n", result_closed_at := "" }

/-- A participants table in which the first 11 candidates of the identity
random stream all collide: one more collision than a 10-attempt budget
admits. -/
def exhaustedTable : ParticipantsTable :=
  { rows := (List.range 11).map collidingRow, nextId := 12 }

/-- Concrete organization application row for the lookup witness. -/
def orgAppW : OrgAppRec := { id := 1, uuid := "abc123", organization_id := 9 }

/-- A participants table whose single row collides with draw 0 of the
identity random stream. -/
def collideOneTable : ParticipantsTable := { rows := [collidingRow 0], nextId := 2 }

/-- The participant row created by the allocation witness run: draw 0
collided, draw 1 was fresh and is the stored uuid. -/
def c3P : ParticipantRec :=
  { id := 2, uuid := uuidHex 1, organization_id := 1, space_id := 3,
    participant_code := "q", participant_user_code := "u",
    participant_name := "n", result_closed_at := "1970-01-02 00:00:00.000000" }

/-- The participants table after the allocation witness run. -/
def c3St : ParticipantsTable := { rows := [collidingRow 0, c3P], nextId := 3 }

/-- Store well-formedness is preserved when a fresh row with id = nextId
is appended and the counter advanced; stated for spaces. -/
theorem SpacesTable.wf_insert (st : SpacesTable) (hwf : st.wf) (org : Nat)
    (code name : String) : (insertSpace st org code name).1.wf := by
  intro r hr
  simp only [insertSpace, List.mem_append, List.mem_singleton] at hr
  rcases hr with hr | hr
  · exact Nat.lt_succ_of_lt (hwf r hr)
  · subst hr
    exact Nat.lt_succ_self _

/-- No existing row carries the not-yet-assigned id, so the re-read after
an insert into spaces finds exactly the inserted row. -/
theorem lookupSpaceById_insertSpace (st : SpacesTable) (hwf : st.wf) (org : Nat)
    (code name : String) :
    lookupSpaceById (insertSpace st org code name).1 st.nextId =
      some (newSpaceRec st org code name) := by
  have hnone : st.rows.find? (fun r => r.id == st.nextId) = none := by
    rw [List.find?_eq_none]
    intro r hr
    simp only [beq_iff_eq]
    exact Nat.ne_of_lt (hwf r hr)
  simp [lookupSpaceById, insertSpace, List.find?_append, hnone, newSpaceRec]

/-- No existing row carries the not-yet-assigned id, so the re-read after
an insert into participants finds exactly the inserted row. -/
theorem lookupParticipantById_insertParticipant (st : ParticipantsTable)
    (hwf : st.wf) (u : String) (org spaceId : Nat) (code ucode name rca : String) :
    lookupParticipantById (insertParticipant st u org spaceId code ucode name rca).1 st.nextId =
      some (newParticipantRec st u org spaceId code ucode name rca) := by
  have hnone : st.rows.find? (fun r => r.id == st.nextId) = none := by
    rw [List.find?_eq_none]
    intro r hr
    simp only [beq_iff_eq]
    exact Nat.ne_of_lt (hwf r hr)
  simp [lookupParticipantById, insertParticipant, List.find?_append, hnone,
    newParticipantRec]

/-- Characterization of a terminating run of the allocation loop: some
draw index i at or after the starting index is fresh, every draw strictly
between the start and i collides, the table gains exactly the row built
from draw i, and the result is the re-read by lastrowid. The existence
checks run against the unchanged input table because the loop writes
nothing before its successful iteration. -/
theorem participantCreateLoop_spec (rng : Nat → Nat) (now organization_id : Nat)
    (space : SpaceRec) (pc pu pn : String) (st : ParticipantsTable) :
    ∀ fuel k st' res,
      participantCreateLoop rng now organization_id space pc pu pn st fuel k =
        some (st', res) →
      ∃ i, k ≤ i ∧
        (∀ j, k ≤ j → j < i →
          (lookupParticipantByUuid st (uuidHex (rng j))).isSome = true) ∧
        lookupParticipantByUuid st (uuidHex (rng i)) = none ∧
        st' = (insertParticipant st (uuidHex (rng i)) organization_id space.id pc pu pn
                (strftimeMicro (now + space.open_result_days * USEC_PER_DAY))).1 ∧
        res = lookupParticipantById st' st.nextId := by
  intro fuel
  induction fuel with
  | zero =>
      intro k st' res h
      simp [participantCreateLoop] at h
  | succ fuel ih =>
      intro k st' res h
      cases hx : lookupParticipantByUuid st (uuidHex (rng k)) with
      | some q =>
          simp only [participantCreateLoop, hx] at h
          obtain ⟨i, hki, hcoll, hfresh, hst, hres⟩ := ih (k + 1) st' res h
          refine ⟨i, by omega, ?_, hfresh, hst, hres⟩
          intro j hj1 hj2
          rcases Nat.eq_or_lt_of_le hj1 with hj | hj
          · rw [← hj, hx]
            rfl
          · exact hcoll j hj hj2
      | none =>
          simp only [participantCreateLoop, hx] at h
          have hst := congrArg Prod.fst (Option.some.inj h)
          have hres := congrArg Prod.snd (Option.some.inj h)
          dsimp only at hst hres
          refine ⟨k, Nat.le_refl k, ?_, hx, hst.symm, ?_⟩
          · intro j hj1 hj2
            omega
          · rw [← hres, ← hst]
            rfl

/-- If the draws before index i all collide and the draw at i is fresh,
any fuel of more than i - k steps makes the loop terminate at draw i:
the loop never stops early and never gives up. -/
theorem participantCreateLoop_runs (rng : Nat → Nat) (now organization_id : Nat)
    (space : SpaceRec) (pc pu pn : String) (st : ParticipantsTable) :
    ∀ fuel k i, k ≤ i → i < k + fuel →
      (∀ j, k ≤ j → j < i →
        (lookupParticipantByUuid st (uuidHex (rng j))).isSome = true) →
      lookupParticipantByUuid st (uuidHex (rng i)) = none →
      participantCreateLoop rng now organization_id space pc pu pn st fuel k =
        some ((insertParticipant st (uuidHex (rng i)) organization_id space.id pc pu pn
                (strftimeMicro (now + space.open_result_days * USEC_PER_DAY))).1,
              lookupParticipantById
                (insertParticipant st (uuidHex (rng i)) organization_id space.id pc pu pn
                  (strftimeMicro (now + space.open_result_days * USEC_PER_DAY))).1
                st.nextId) := by
  intro fuel
  induction fuel with
  | zero =>
      intro k i hki hlt
      omega
  | succ fuel ih =>
      intro k i hki hlt hcoll hfresh
      by_cases hik : i = k
      · subst hik
        simp only [participantCreateLoop, hfresh]
        rfl
      · have hklt : k < i := Nat.lt_of_le_of_ne hki (fun h => hik h.symm)
        obtain ⟨q, hq⟩ := Option.isSome_iff_exists.mp (hcoll k (Nat.le_refl k) hklt)
        simp only [participantCreateLoop, hq]
        exact ih (k + 1) i (by omega) (by omega)
          (fun j hj1 hj2 => hcoll j (by omega) hj2) hfresh

/-- Fixed-width hex rendering has exactly the requested width. -/
theorem hexChars_length (w : Nat) : ∀ n, (hexChars w n).length = w := by
  induction w with
  | zero => intro n; rfl
  | succ w ih =>
      intro n
      simp [hexChars, ih]

/-- A generated identifier is exactly 32 characters long. -/
theorem uuidHex_length (n : Nat) : (uuidHex n).length = 32 := by
  unfold uuidHex
  rw [String.length_mk]
  exact hexChars_length 32 _

/-- Every value below 16 renders as a decimal digit or a lowercase letter
between a and f; in particular never as a separator. -/
theorem hexDigit_range :
    ∀ m, m < 16 →
      ((hexDigit m).isDigit = true ∨ ('a' ≤ hexDigit m ∧ hexDigit m ≤ 'f')) ∧
        hexDigit m ≠ '-' := by
  decide

/-- Every character of a fixed-width hex rendering is produced by
hexDigit on a value below 16. -/
theorem hexChars_chars (w : Nat) :
    ∀ n c, c ∈ hexChars w n → ∃ m, m < 16 ∧ c = hexDigit m := by
  induction w with
  | zero =>
      intro n c hc
      simp [hexChars] at hc
  | succ w ih =>
      intro n c hc
      simp only [hexChars, List.mem_append, List.mem_singleton] at hc
      rcases hc with hc | hc
      · exact ih (n / 16) c hc
      · exact ⟨n % 16, Nat.mod_lt _ (by omega), hc⟩

/-- Every character of a generated identifier is a lowercase hex digit
and not a separator. -/
theorem uuidHex_chars (n : Nat) (c : Char) (hc : c ∈ (uuidHex n).data) :
    (c.isDigit = true ∨ ('a' ≤ c ∧ c ≤ 'f')) ∧ c ≠ '-' := by
  obtain ⟨m, hm, hcm⟩ := hexChars_chars 32 (n % 2 ^ 128) c hc
  subst hcm
  exact hexDigit_range m hm

/-- An empty spaces table with schema default 7 for open_result_days,
used by the miss-path witness. -/
def emptySpacesW : SpacesTable := { rows := [], nextId := 1, defaultOpenResultDays := 7 }

/-- C1: get-or-create resolution is idempotent on the hit path: when the
natural-key lookup finds a record, get_or_create_space (key
organization_id, space_code) and get_or_create_participant (key
organization_id, space id, participant_code) return that stored record,
id and name included, and leave the table unchanged (no insert), whatever
spaceName, participantName or participant_user_code is supplied; hence a
second call with the same key returns a record with the same id as the
first and the originally stored name even under a different supplied
name. -/
theorem getOrCreate_hit_idempotent
    (sst : SpacesTable) (org : Nat) (code name1 name2 : String) (r : SpaceRec)
    (hs : lookupSpaceByKey sst org code = some r)
    (pst : ParticipantsTable) (rng1 rng2 : Nat → Nat) (now1 now2 fuel1 fuel2 : Nat)
    (space : SpaceRec) (pc pu1 pu2 pn1 pn2 : String) (p : ParticipantRec)
    (hp : lookupParticipantByKey pst org space.id pc = some p) :
    get_or_create_space sst org code name1 = (sst, some r) ∧
    get_or_create_space sst org code name2 = (sst, some r) ∧
    get_or_create_participant pst rng1 now1 fuel1 org space pc pu1 pn1 =
      some (pst, some p) ∧
    get_or_create_participant pst rng2 now2 fuel2 org space pc pu2 pn2 =
      some (pst, some p) := by
  simp [get_or_create_space, get_or_create_participant, hs, hp]

/-- Witness for C1 at the concrete scenario of the spec: a stored space
(42, S1, Space One) and a stored participant; the second call supplies the
different name Renamed and still gets the stored record back with no
write. -/
theorem getOrCreate_hit_idempotent_witness :
    lookupSpaceByKey spacesHitW 42 "S1" = some spaceHitW ∧
    lookupParticipantByKey partsHitW 42 spaceHitW.id "P1" = some partHitW ∧
    get_or_create_space spacesHitW 42 "S1" "Renamed" = (spacesHitW, some spaceHitW) ∧
    get_or_create_participant partsHitW (fun k => k + 1) 77 5 42 spaceHitW "P1" "U2" "N2" =
      some (partsHitW, some partHitW) := by
  refine ⟨by decide, by decide, ?_, ?_⟩
  · exact (getOrCreate_hit_idempotent spacesHitW 42 "S1" "Renamed" "Space One" spaceHitW
      (by decide) partsHitW (fun k => k + 1) (fun k => k + 1) 77 77 5 5 spaceHitW
      "P1" "U2" "U2" "N2" "N2" partHitW (by decide)).1
  · exact (getOrCreate_hit_idempotent spacesHitW 42 "S1" "Renamed" "Space One" spaceHitW
      (by decide) partsHitW (fun k => k + 1) (fun k => k + 1) 77 77 5 5 spaceHitW
      "P1" "U2" "U2" "N2" "N2" partHitW (by decide)).2.2.1

/-- C9: hit-path determinism: when the natural-key lookup finds a record,
both resolvers issue no write and the participant resolver consumes no
randomness and no clock reading: the result is the same for every random
stream, clock value and fuel, and the table is returned unchanged. -/
theorem hit_path_deterministic
    (sst : SpacesTable) (org : Nat) (code name : String) (r : SpaceRec)
    (hs : lookupSpaceByKey sst org code = some r)
    (pst : ParticipantsTable) (rng1 rng2 : Nat → Nat) (now1 now2 fuel1 fuel2 : Nat)
    (space : SpaceRec) (pc pu pn : String) (p : ParticipantRec)
    (hp : lookupParticipantByKey pst org space.id pc = some p) :
    get_or_create_space sst org code name = (sst, some r) ∧
    get_or_create_participant pst rng1 now1 fuel1 org space pc pu pn =
      some (pst, some p) ∧
    get_or_create_participant pst rng1 now1 fuel1 org space pc pu pn =
      get_or_create_participant pst rng2 now2 fuel2 org space pc pu pn := by
  simp [get_or_create_space, get_or_create_participant, hs, hp]

/-- Witness for C9: two runs with different random streams, clocks and
fuel agree on the hit path and write nothing. -/
theorem hit_path_deterministic_witness :
    lookupSpaceByKey spacesHitW 42 "S1" = some spaceHitW ∧
    lookupParticipantByKey partsHitW 42 spaceHitW.id "P1" = some partHitW ∧
    get_or_create_space spacesHitW 42 "S1" "Space One" = (spacesHitW, some spaceHitW) ∧
    get_or_create_participant partsHitW (fun _ => 0) 0 1 42 spaceHitW "P1" "U1" "N1" =
      get_or_create_participant partsHitW (fun k => k + 9) 123456 7 42 spaceHitW "P1" "U1" "N1" := by
  refine ⟨by decide, by decide, ?_, ?_⟩
  · exact (hit_path_deterministic spacesHitW 42 "S1" "Space One" spaceHitW (by decide)
      partsHitW (fun _ => 0) (fun k => k + 9) 0 123456 1 7 spaceHitW
      "P1" "U1" "N1" partHitW (by decide)).1
  · exact (hit_path_deterministic spacesHitW 42 "S1" "Space One" spaceHitW (by decide)
      partsHitW (fun _ => 0) (fun k => k + 9) 0 123456 1 7 spaceHitW
      "P1" "U1" "N1" partHitW (by decide)).2.2

/-- C5: on a miss, get_or_create_space inserts exactly one row carrying
the supplied spaceName, re-reads it by the store-assigned surrogate key
(lastrowid, the nextId at call time) and returns that freshly read
record; the returned record carries the store-assigned open_result_days
default, a value that was not among the INSERT inputs, so the result is
the persisted row, not an echo of the arguments. -/
theorem space_miss_insert_reread (st : SpacesTable) (org : Nat) (code name : String)
    (hwf : st.wf) (hmiss : lookupSpaceByKey st org code = none) :
    get_or_create_space st org code name =
      ((insertSpace st org code name).1, some (newSpaceRec st org code name)) ∧
    (get_or_create_space st org code name).2 =
      lookupSpaceById (get_or_create_space st org code name).1 st.nextId ∧
    (insertSpace st org code name).1.rows = st.rows ++ [newSpaceRec st org code name] ∧
    (newSpaceRec st org code name).id = st.nextId ∧
    (newSpaceRec st org code name).space_name = name ∧
    (newSpaceRec st org code name).open_result_days = st.defaultOpenResultDays := by
  have hre := lookupSpaceById_insertSpace st hwf org code name
  have h1 : get_or_create_space st org code name =
      ((insertSpace st org code name).1,
        lookupSpaceById (insertSpace st org code name).1 st.nextId) := by
    unfold get_or_create_space
    rw [hmiss]
    rfl
  refine ⟨?_, ?_, rfl, rfl, rfl, rfl⟩
  · rw [h1, hre]
  · rw [h1]

/-- Witness for C5 at the concrete scenario of the spec: from an empty
table, resolving (42, S1, Space One) inserts and returns the row with
id 1 and the store-assigned open_result_days 7. -/
theorem space_miss_insert_reread_witness :
    lookupSpaceByKey emptySpacesW 42 "S1" = none ∧
    get_or_create_space emptySpacesW 42 "S1" "Space One" = (spacesHitW, some spaceHitW) := by
  refine ⟨by decide, ?_⟩
  have h := (space_miss_insert_reread emptySpacesW 42 "S1" "Space One"
    (fun r hr => by simp [emptySpacesW] at hr) (by decide)).1
  rw [h]
  decide

/-- C7: get_parameter distinguishes the two failure shapes of the
parameter store: a ParameterNotFound outcome yields the supplied default
and a logged warning, any other failure is propagated unchanged with no
log, and a successful retrieval yields the stored value. -/
theorem get_parameter_cases (ssm : String → SsmResponse) (key : String)
    (dflt : Option String) :
    (∀ v, ssm key = .found v → get_parameter ssm key dflt = (.ok (some v), [])) ∧
    (ssm key = .parameterNotFound →
      get_parameter ssm key dflt =
        (.ok dflt,
         ["Parameter \x7b" ++ key ++ "\x7d not found. Returning default value."])) ∧
    (∀ e, ssm key = .otherFailure e → get_parameter ssm key dflt = (.error e, [])) := by
  refine ⟨?_, ?_, ?_⟩
  · intro v h
    simp [get_parameter, h]
  · intro h
    simp [get_parameter, h]
  · intro e h
    simp [get_parameter, h]

/-- Witness for C7: the three outcomes at concrete stores and keys. -/
theorem get_parameter_cases_witness :
    get_parameter (fun _ => .parameterNotFound) "k" (some "d") =
      (.ok (some "d"),
       ["Parameter \x7b" ++ "k" ++ "\x7d not found. Returning default value."]) ∧
    get_parameter (fun _ => .found "v") "k" (some "d") = (.ok (some "v"), []) ∧
    get_parameter (fun _ => .otherFailure "boom") "k" none = (.error "boom", []) :=
  ⟨(get_parameter_cases (fun _ => .parameterNotFound) "k" (some "d")).2.1 rfl,
   (get_parameter_cases (fun _ => .found "v") "k" (some "d")).1 "v" rfl,
   (get_parameter_cases (fun _ => .otherFailure "boom") "k" none).2.2 "boom" rfl⟩

/-- C8: get_organization_app normalizes the identifier by stripping every
hyphen before the keyed lookup, so a hyphenated and a bare identifier
resolve alike, and a miss is returned as the explicit absent value none
rather than raised. -/
theorem organization_app_normalized_lookup (rows : List OrgAppRec) (u : String) :
    get_organization_app rows u = lookupOrgAppByUuid rows (stripHyphens u) ∧
    get_organization_app rows u = get_organization_app rows (stripHyphens u) ∧
    ((∀ r ∈ rows, r.uuid ≠ stripHyphens u) → get_organization_app rows u = none) := by
  refine ⟨rfl, ?_, ?_⟩
  · simp [get_organization_app, stripHyphens, List.filter_filter]
  · intro h
    simp only [get_organization_app, lookupOrgAppByUuid, List.find?_eq_none,
      beq_iff_eq]
    exact h

/-- Witness for C8: the hyphenated identifier ab-c1-23 resolves exactly
like its stripped form abc123, and a lookup over an empty table returns
none. -/
theorem organization_app_normalized_lookup_witness :
    get_organization_app [orgAppW] "ab-c1-23" =
      lookupOrgAppByUuid [orgAppW] (stripHyphens "ab-c1-23") ∧
    get_organization_app [] "zz" = none :=
  ⟨(organization_app_normalized_lookup [orgAppW] "ab-c1-23").1,
   (organization_app_normalized_lookup [] "zz").2.2 (by simp)⟩

/-- A terminating miss-path run of get_or_create_participant creates and
returns the row built from the first fresh draw of the random stream,
every earlier draw having collided. -/
theorem get_or_create_participant_miss_spec (st : ParticipantsTable)
    (rng : Nat → Nat) (now fuel organization_id : Nat) (space : SpaceRec)
    (pc pu pn : String) (st' : ParticipantsTable) (p : ParticipantRec)
    (hwf : st.wf)
    (hmiss : lookupParticipantByKey st organization_id space.id pc = none)
    (hrun : get_or_create_participant st rng now fuel organization_id space pc pu pn =
      some (st', some p)) :
    ∃ i, (∀ j, j < i → (lookupParticipantByUuid st (uuidHex (rng j))).isSome = true) ∧
      lookupParticipantByUuid st (uuidHex (rng i)) = none ∧
      p = newParticipantRec st (uuidHex (rng i)) organization_id space.id pc pu pn
            (strftimeMicro (now + space.open_result_days * USEC_PER_DAY)) ∧
      st' = (insertParticipant st (uuidHex (rng i)) organization_id space.id pc pu pn
            (strftimeMicro (now + space.open_result_days * USEC_PER_DAY))).1 := by
  have hloop : participantCreateLoop rng now organization_id space pc pu pn st fuel 0 =
      some (st', some p) := by
    rw [← hrun]
    unfold get_or_create_participant
    rw [hmiss]
  obtain ⟨i, _, hcoll, hfresh, hst, hres⟩ :=
    participantCreateLoop_spec rng now organization_id space pc pu pn st fuel 0 st'
      (some p) hloop
  rw [hst] at hres
  rw [lookupParticipantById_insertParticipant st hwf (uuidHex (rng i)) organization_id
    space.id pc pu pn (strftimeMicro (now + space.open_result_days * USEC_PER_DAY))] at hres
  exact ⟨i, fun j hj => hcoll j (Nat.zero_le j) hj, hfresh, Option.some.inj hres, hst⟩

/-- C2 counterexample: the claim says the code raises AllocationExhausted
rather than looping further once the existence check has reported a
collision for more candidates than a hard budget of 10 attempts allows;
on a table where the first 11 candidates all collide, the call loops
further and succeeds, inserting the twelfth candidate, with no failure
outcome of any kind. -/
theorem allocation_budget_counterexample :
    (∀ j, j < 11 → (lookupParticipantByUuid exhaustedTable (uuidHex j)).isSome = true) ∧
    (get_or_create_participant exhaustedTable (fun k => k) 0 12 1 spaceC2 "q" "u" "n").map
        (fun r => r.2.map (fun p => p.uuid)) = some (some (uuidHex 11)) :=
  ⟨by decide, by decide⟩

/-- C2 amended: the allocation loop of get_or_create_participant has no
retry budget and never raises AllocationExhausted; whatever number i of
leading collisions the existence check reports, the loop keeps retrying
and terminates by inserting the first fresh candidate, for any fuel above
i. -/
theorem allocation_loop_unbounded (st : ParticipantsTable) (rng : Nat → Nat)
    (now fuel organization_id : Nat) (space : SpaceRec) (pc pu pn : String) (i : Nat)
    (hmiss : lookupParticipantByKey st organization_id space.id pc = none)
    (hcoll : ∀ j, j < i → (lookupParticipantByUuid st (uuidHex (rng j))).isSome = true)
    (hfresh : lookupParticipantByUuid st (uuidHex (rng i)) = none)
    (hfuel : i < fuel) :
    get_or_create_participant st rng now fuel organization_id space pc pu pn =
      some ((insertParticipant st (uuidHex (rng i)) organization_id space.id pc pu pn
              (strftimeMicro (now + space.open_result_days * USEC_PER_DAY))).1,
            lookupParticipantById
              (insertParticipant st (uuidHex (rng i)) organization_id space.id pc pu pn
                (strftimeMicro (now + space.open_result_days * USEC_PER_DAY))).1
              st.nextId) := by
  have h1 : get_or_create_participant st rng now fuel organization_id space pc pu pn =
      participantCreateLoop rng now organization_id space pc pu pn st fuel 0 := by
    unfold get_or_create_participant
    rw [hmiss]
  rw [h1]
  exact participantCreateLoop_runs rng now organization_id space pc pu pn st fuel 0 i
    (Nat.zero_le i) (by omega) (fun j _ hj2 => hcoll j hj2) hfresh

/-- Witness for the amended C2: with 11 leading collisions, one more than
the claimed budget, the call still succeeds and inserts candidate 11. -/
theorem allocation_loop_unbounded_witness :
    lookupParticipantByKey exhaustedTable 1 spaceC2.id "q" = none ∧
    (∀ j, j < 11 → (lookupParticipantByUuid exhaustedTable (uuidHex j)).isSome = true) ∧
    lookupParticipantByUuid exhaustedTable (uuidHex 11) = none ∧
    get_or_create_participant exhaustedTable (fun k => k) 0 12 1 spaceC2 "q" "u" "n" =
      some ((insertParticipant exhaustedTable (uuidHex 11) 1 spaceC2.id "q" "u" "n"
              (strftimeMicro (0 + spaceC2.open_result_days * USEC_PER_DAY))).1,
            lookupParticipantById
              (insertParticipant exhaustedTable (uuidHex 11) 1 spaceC2.id "q" "u" "n"
                (strftimeMicro (0 + spaceC2.open_result_days * USEC_PER_DAY))).1
              exhaustedTable.nextId) := by
  refine ⟨by decide, by decide, by decide, ?_⟩
  exact allocation_loop_unbounded exhaustedTable (fun k => k) 0 12 1 spaceC2 "q" "u" "n" 11
    (by decide) (by decide) (by decide) (by omega)

/-- C3: identifier allocation draws 128-bit values from the random
stream, hex-encodes each as exactly 32 separator-free lowercase-hex
characters, checks each candidate by the point lookup on the uuid column
of the participants table, and repeats until the check reports absent;
the uuid carried by the row created on a miss is exactly a candidate
whose existence lookup on the pre-insert table returned absent, every
earlier candidate having collided. -/
theorem allocated_uuid_fresh_hex (st : ParticipantsTable) (rng : Nat → Nat)
    (now fuel organization_id : Nat) (space : SpaceRec) (pc pu pn : String)
    (st' : ParticipantsTable) (p : ParticipantRec)
    (hwf : st.wf)
    (hmiss : lookupParticipantByKey st organization_id space.id pc = none)
    (hrun : get_or_create_participant st rng now fuel organization_id space pc pu pn =
      some (st', some p)) :
    (∃ i, p.uuid = uuidHex (rng i) ∧
        lookupParticipantByUuid st (uuidHex (rng i)) = none ∧
        ∀ j, j < i → (lookupParticipantByUuid st (uuidHex (rng j))).isSome = true) ∧
    p.uuid.length = 32 ∧
    ∀ c ∈ p.uuid.data, (c.isDigit = true ∨ ('a' ≤ c ∧ c ≤ 'f')) ∧ c ≠ '-' := by
  obtain ⟨i, hcoll, hfresh, hp, _⟩ := get_or_create_participant_miss_spec st rng now fuel
    organization_id space pc pu pn st' p hwf hmiss hrun
  have hpu : p.uuid = uuidHex (rng i) := by
    rw [hp]
    rfl
  refine ⟨⟨i, hpu, hfresh, hcoll⟩, ?_, ?_⟩
  · rw [hpu]
    exact uuidHex_length (rng i)
  · intro c hc
    rw [hpu] at hc
    exact uuidHex_chars (rng i) c hc

/-- Witness for C3: one collision then a fresh draw; the created row
carries the second candidate, a 32-character hex string. -/
theorem allocated_uuid_fresh_hex_witness :
    lookupParticipantByKey collideOneTable 1 spaceC2.id "q" = none ∧
    get_or_create_participant collideOneTable (fun k => k) 0 2 1 spaceC2 "q" "u" "n" =
      some (c3St, some c3P) ∧
    (∃ i, c3P.uuid = uuidHex ((fun k => k) i) ∧
        lookupParticipantByUuid collideOneTable (uuidHex ((fun k => k) i)) = none ∧
        ∀ j, j < i →
          (lookupParticipantByUuid collideOneTable (uuidHex ((fun k => k) j))).isSome = true) ∧
    c3P.uuid.length = 32 := by
  have hwf : collideOneTable.wf := by
    intro r hr
    simp only [collideOneTable, List.mem_singleton] at hr
    subst hr
    decide
  have h := allocated_uuid_fresh_hex collideOneTable (fun k => k) 0 2 1 spaceC2 "q" "u" "n"
    c3St c3P hwf (by decide) (by decide)
  exact ⟨by decide, by decide, h.1, h.2.1⟩

/-- C4: on a participant-creation miss with creation instant now and
space.open_result_days = D, the result_closed_at stored in and returned
with the created row is the instant now + D days, serialized by
strftimeMicro in the microsecond-precision format
YYYY-MM-DD HH:MM:SS.ffffff. -/
theorem result_closed_at_formula (st : ParticipantsTable) (rng : Nat → Nat)
    (now fuel organization_id : Nat) (space : SpaceRec) (pc pu pn : String)
    (st' : ParticipantsTable) (p : ParticipantRec)
    (hwf : st.wf)
    (hmiss : lookupParticipantByKey st organization_id space.id pc = none)
    (hrun : get_or_create_participant st rng now fuel organization_id space pc pu pn =
      some (st', some p)) :
    p.result_closed_at = strftimeMicro (now + space.open_result_days * USEC_PER_DAY) := by
  obtain ⟨i, _, _, hp, _⟩ := get_or_create_participant_miss_spec st rng now fuel
    organization_id space pc pu pn st' p hwf hmiss hrun
  rw [hp]
  rfl

/-- Witness for C4 at the concrete scenario of the spec: creation instant
2024-01-01 00:00:00 (19723 days after the epoch) and open_result_days 3
give the serialized result_closed_at 2024-01-04 00:00:00.000000. -/
theorem result_closed_at_formula_witness :
    lookupParticipantByKey { rows := [], nextId := 1 } 42 spaceW4.id "P1" = none ∧
    get_or_create_participant { rows := [], nextId := 1 } (fun _ => 0)
      (19723 * USEC_PER_DAY) 1 42 spaceW4 "P1" "U1" "N1" = some (stW4, some pW4) ∧
    pW4.result_closed_at = "2024-01-04 00:00:00.000000" := by
  refine ⟨by decide, by decide, ?_⟩
  have h := result_closed_at_formula { rows := [], nextId := 1 } (fun _ => 0)
    (19723 * USEC_PER_DAY) 1 42 spaceW4 "P1" "U1" "N1" stW4 pW4
    (fun r hr => by simp at hr) (by decide) (by decide)
  rw [h]
  decide

/-- C6: create_face_auth_log performs exactly one insert per call, with
reason and logs serialized to JSON text by jsonDumpsVal, and applies no
deduplication: two successive calls with identical arguments append two
rows whose payloads agree and whose store-assigned ids differ, with no
merge and no error. -/
theorem face_auth_log_no_dedup (st : FaceAuthTable) (org sid pid : Nat)
    (ac : String) (ia : Bool) (reason logs : PyVal) (th : Rat) (rs ls : String)
    (hr : jsonDumpsVal reason = .ok rs) (hl : jsonDumpsVal logs = .ok ls) :
    create_face_auth_log st org sid pid ac ia reason logs th =
      ({ rows := st.rows ++ [newFaceAuthRec st org sid pid ac ia rs ls th],
         nextId := st.nextId + 1 }, .ok true) ∧
    (create_face_auth_log (create_face_auth_log st org sid pid ac ia reason logs th).1
        org sid pid ac ia reason logs th).1.rows =
      st.rows ++ [newFaceAuthRec st org sid pid ac ia rs ls th,
        { newFaceAuthRec st org sid pid ac ia rs ls th with id := st.nextId + 1 }] ∧
    (create_face_auth_log (create_face_auth_log st org sid pid ac ia reason logs th).1
        org sid pid ac ia reason logs th).2 = .ok true ∧
    (newFaceAuthRec st org sid pid ac ia rs ls th).id ≠
      ({ newFaceAuthRec st org sid pid ac ia rs ls th with id := st.nextId + 1 } : FaceAuthRec).id := by
  have h1 : create_face_auth_log st org sid pid ac ia reason logs th =
      ({ rows := st.rows ++ [newFaceAuthRec st org sid pid ac ia rs ls th],
         nextId := st.nextId + 1 }, .ok true) := by
    unfold create_face_auth_log
    rw [hr, hl]
  refine ⟨h1, ?_, ?_, ?_⟩
  · rw [h1]
    unfold create_face_auth_log
    rw [hr, hl]
    simp [newFaceAuthRec, List.append_assoc]
  · rw [h1]
    unfold create_face_auth_log
    rw [hr, hl]
  · simp only [newFaceAuthRec]
    omega

/-- Witness for C6: two appends of byte-identical arguments starting from
an empty table produce exactly two rows, equal except for their ids. -/
theorem face_auth_log_no_dedup_witness :
    jsonDumpsVal (PyVal.dict [("why", PyVal.str "ok")]) = .ok "\x7b\"why\": \"ok\"\x7d" ∧
    jsonDumpsVal (PyVal.arr [PyVal.int 1]) = .ok "[1]" ∧
    (create_face_auth_log { rows := [], nextId := 5 } 1 2 3 "AC" true
        (PyVal.dict [("why", PyVal.str "ok")]) (PyVal.arr [PyVal.int 1]) 1).1.rows.length = 1 ∧
    (create_face_auth_log (create_face_auth_log { rows := [], nextId := 5 } 1 2 3 "AC" true
        (PyVal.dict [("why", PyVal.str "ok")]) (PyVal.arr [PyVal.int 1]) 1).1 1 2 3 "AC" true
        (PyVal.dict [("why", PyVal.str "ok")]) (PyVal.arr [PyVal.int 1]) 1).1.rows =
      [newFaceAuthRec { rows := [], nextId := 5 } 1 2 3 "AC" true "\x7b\"why\": \"ok\"\x7d" "[1]" 1,
       { newFaceAuthRec { rows := [], nextId := 5 } 1 2 3 "AC" true "\x7b\"why\": \"ok\"\x7d" "[1]" 1
         with id := 6 }] := by
  have h := face_auth_log_no_dedup { rows := [], nextId := 5 } 1 2 3 "AC" true
    (PyVal.dict [("why", PyVal.str "ok")]) (PyVal.arr [PyVal.int 1]) 1
    "\x7b\"why\": \"ok\"\x7d" "[1]" rfl rfl
  refine ⟨rfl, rfl, ?_, ?_⟩
  · rw [h.1]
    rfl
  · exact h.2.1

/-- C10: create_face_auth_log never signals failure through its return
value: a normal return is always True, and the raised-failure outcome
occurs exactly when serializing reason or logs fails (a document that is
not JSON-serializable); in that case the failure is raised before the
INSERT runs and the table is returned unchanged, with no row created. -/
theorem face_auth_log_result_shape (st : FaceAuthTable) (org sid pid : Nat)
    (ac : String) (ia : Bool) (reason logs : PyVal) (th : Rat) :
    (∀ b, (create_face_auth_log st org sid pid ac ia reason logs th).2 = .ok b →
      b = true) ∧
    (∀ e, (create_face_auth_log st org sid pid ac ia reason logs th).2 = .error e →
      (create_face_auth_log st org sid pid ac ia reason logs th).1 = st) ∧
    ((∃ e, (create_face_auth_log st org sid pid ac ia reason logs th).2 = .error e) ↔
      (∃ e, jsonDumpsVal reason = .error e) ∨ (∃ e, jsonDumpsVal logs = .error e)) := by
  rcases hr : jsonDumpsVal reason with e0 | rs
  · refine ⟨?_, ?_, ?_⟩
    · intro b hb
      simp [create_face_auth_log, hr] at hb
    · intro e _
      simp [create_face_auth_log, hr]
    · simp [create_face_auth_log, hr]
  · rcases hl : jsonDumpsVal logs with e0 | ls
    · refine ⟨?_, ?_, ?_⟩
      · intro b hb
        simp [create_face_auth_log, hr, hl] at hb
      · intro e _
        simp [create_face_auth_log, hr, hl]
      · simp [create_face_auth_log, hr, hl]
    · refine ⟨?_, ?_, ?_⟩
      · intro b hb
        simp [create_face_auth_log, hr, hl] at hb
        exact hb
      · intro e he
        simp [create_face_auth_log, hr, hl] at he
      · simp [create_face_auth_log, hr, hl]

/-- Witness for C10: a non-serializable reason document raises TypeError
before the insert and the table comes back unchanged, with no row. -/
theorem face_auth_log_result_shape_witness :
    (create_face_auth_log { rows := [], nextId := 1 } 1 2 3 "AC" true
        (PyVal.object "datetime") PyVal.null 1).1 = { rows := [], nextId := 1 } ∧
    jsonDumpsVal (PyVal.object "datetime") =
      .error (.typeError "Object of type datetime is not JSON serializable") := by
  refine ⟨?_, rfl⟩
  exact (face_auth_log_result_shape { rows := [], nextId := 1 } 1 2 3 "AC" true
    (PyVal.object "datetime") PyVal.null 1).2.1
    (.typeError "Object of type datetime is not JSON serializable") rfl
